import Mathlib

/-!
# Verification of the Parakeet agent-orchestration core

Shallow embedding of the agent loop, tool classification, streaming
accumulator, session store and transcript trimming of the `parakeet`
repository (`src/parakeet/core/agent.py`, `tools.py`, `session.py`,
`multi_agent.py`), together with theorems settling the frozen claims
about the natural-language specification.

Modelling conventions:
* Python dictionaries of string-valued tool arguments are ordered
  association lists `List (String × String)` with Python's in-place
  update semantics (`argSet` replaces in position, appends otherwise).
* `None`/absent values are `Option`; Python truthiness of strings and
  lists ("empty is falsy") is embedded explicitly at each use site.
* An uncaught Python exception is the `Except.error` case; code that
  raises is embedded in `Except String`.
* Interactive I/O (the confirmation prompt, the model stream) is a
  parameter: the loop only observes the values those calls return.
-/

namespace Parakeet

/-! ## Python string and list primitives -/

/-- Characters stripped by Python's `str.strip()` (ASCII whitespace). -/
def pyIsSpace (c : Char) : Bool :=
  c = ' ' || c = '\t' || c = '\n' || c = '\r' || c = '\x0b' || c = '\x0c'

/-- Python `str.strip()`. -/
def pyStrip (s : String) : String :=
  ⟨((s.toList.dropWhile pyIsSpace).reverse.dropWhile pyIsSpace).reverse⟩

/-- `s.startswith(p)` on character lists (kernel-friendly). -/
def listStartsWith : List Char → List Char → Bool
  | _, [] => true
  | [], _ :: _ => false
  | c :: cs, d :: ds => c = d && listStartsWith cs ds

/-- Python `s.startswith(p)` for strings. -/
def strStartsWith (s p : String) : Bool :=
  listStartsWith s.toList p.toList

/-- Python `s[:n]` for strings. -/
def strTake (s : String) (n : Nat) : String :=
  ⟨s.toList.take n⟩

/-- ASCII `str.upper()` (structural, so the kernel can evaluate it). -/
def pyUpper (s : String) : String :=
  ⟨s.toList.map Char.toUpper⟩

/-- Split a character list at a separator (Python `s.split(sep)` for a
single-character separator; the basis of path parsing). -/
def splitOnChar (sep : Char) : List Char → List (List Char)
  | [] => [[]]
  | x :: xs =>
      let r := splitOnChar sep xs
      if x = sep then [] :: r
      else
        match r with
        | [] => [[x]]
        | h :: t => (x :: h) :: t

/-- Python `l[s:]`: for a negative start keep the last `-s` elements
(saturating at the full list), for a non-negative start drop `s`
elements.  In particular `l[-0:] = l[0:] = l`. -/
def pySliceFrom (s : Int) (l : List α) : List α :=
  if s < 0 then l.drop (l.length - min l.length s.natAbs)
  else l.drop s.toNat

/-- Python `d.get(k, dflt)` on an ordered association list. -/
def argGet : List (String × String) → String → String → String
  | [], _, dflt => dflt
  | (k', v') :: rest, k, dflt => if k' = k then v' else argGet rest k dflt

/-- Python `d[k] = v` on an ordered association list: replace in place
when the key exists, append at the end otherwise. -/
def argSet : List (String × String) → String → String → List (String × String)
  | [], k, v => [(k, v)]
  | (k', v') :: rest, k, v =>
      if k' = k then (k, v) :: rest else (k', v') :: argSet rest k v

/-! ## Data model: messages, tool calls, tool results

`Message` mirrors the transcript dictionaries built by
`agent.py`/`multi_agent.py`: a role, a content string and (for
assistant messages that request tools) the list of tool calls.  A
message without a `tool_calls` key is modelled with an empty list. -/

inductive Role where
  | system
  | user
  | assistant
  | tool
deriving DecidableEq, Repr

/-- One model-emitted tool invocation request (`tool_call.function`):
a tool name and its arguments dictionary. -/
structure ToolCall where
  name : String
  args : List (String × String)
deriving DecidableEq, Repr

structure Message where
  role : Role
  content : String
  tool_calls : List ToolCall
deriving DecidableEq, Repr

/-- JSON-like values: the result dictionaries Python tools return. -/
inductive JVal where
  | s (v : String)
  | b (v : Bool)
  | arr (vs : List JVal)
  | obj (fields : List (String × JVal))
deriving Repr

mutual

/-- `json.dumps` restricted to the value shapes the loop produces
(string escaping is not modelled; no payload in this development
contains characters that need escaping). -/
def jsonDumps : JVal → String
  | JVal.s v => "\"" ++ v ++ "\""
  | JVal.b true => "true"
  | JVal.b false => "false"
  | JVal.arr vs => "[" ++ jsonDumpsList vs ++ "]"
  | JVal.obj fields => "\x7b" ++ jsonDumpsFields fields ++ "\x7d"

def jsonDumpsList : List JVal → String
  | [] => ""
  | [v] => jsonDumps v
  | v :: rest => jsonDumps v ++ ", " ++ jsonDumpsList rest

def jsonDumpsFields : List (String × JVal) → String
  | [] => ""
  | [(k, v)] => "\"" ++ k ++ "\": " ++ jsonDumps v
  | (k, v) :: rest => "\"" ++ k ++ "\": " ++ jsonDumps v ++ ", " ++ jsonDumpsFields rest

end

/-! ## `tools.py`: path resolution

`pathlib` paths are modelled as a root flag plus a component list; the
`Path(...)` constructor drops empty and `"."` components (as `pathlib`
does) and keeps `".."`.  `Path.resolve()` is modelled as `".."`
normalisation of an absolute path; symbolic links are outside the
model. -/

structure PyPath where
  absolute : Bool
  comps : List String
deriving DecidableEq, Repr

/-- `pathlib.Path(s)`. -/
def parsePath (s : String) : PyPath :=
  { absolute := strStartsWith s "/"
    comps := ((splitOnChar '/' s.toList).map (fun l => String.mk l)).filter
      (fun c => c != "" && c != ".") }

/-- `Path.__truediv__`: `cwd / p` keeps `p` when `p` is absolute. -/
def joinPath (cwd p : PyPath) : PyPath :=
  if p.absolute then p else ⟨cwd.absolute, cwd.comps ++ p.comps⟩

/-- `Path.expanduser()`: a path written `~/...` is re-rooted at the
home directory; everything else is unchanged. -/
def expanduser (home p : PyPath) : PyPath :=
  if !p.absolute && p.comps.head? = some "~" then
    ⟨home.absolute, home.comps ++ p.comps.tail⟩
  else p

/-- `".."` normalisation of an absolute component list (the part of
`Path.resolve()` visible to the model). -/
def normComps (acc : List String) : List String → List String
  | [] => acc.reverse
  | c :: rest =>
      if c = ".." then
        match acc with
        | [] => normComps [] rest
        | _ :: acc' => normComps acc' rest
      else normComps (c :: acc) rest

/-- `Path.resolve()` applied to an absolute path. -/
def pyResolve (p : PyPath) : PyPath :=
  ⟨p.absolute, normComps [] p.comps⟩

/-- `tools.resolve_abs_path` (tools.py:13-18): expand the user
shorthand, then resolve relative paths against the working directory.
An already-absolute path is returned without `resolve()`. -/
def resolve_abs_path (cwd home : PyPath) (path_str : String) : PyPath :=
  let path := expanduser home (parsePath path_str)
  if path.absolute then path
  else pyResolve (joinPath cwd path)

/-- `"/"`-joined rendering of a component list. -/
def renderComps : List String → String
  | [] => ""
  | [c] => c
  | c :: rest => c ++ "/" ++ renderComps rest

/-- Rendering of a path (`str(path)`), used for file-store keys and
for writing a location as an absolute path string. -/
def renderPath (p : PyPath) : String :=
  (if p.absolute then "/" else "") ++ renderComps p.comps

/-! ## `tools.py`: tool implementations and classification -/

/-- Lookup in a model filesystem (path string to file contents). -/
def fsGet : List (String × String) → String → Option String
  | [], _ => none
  | (k, v) :: rest, p => if k = p then some v else fsGet rest p

/-- `tools.read_file_tool` (tools.py:21-38) over a model filesystem:
`open` on a missing path raises `FileNotFoundError` (the repository's
own test `test_read_nonexistent_file` asserts exactly this), embedded
as `Except.error`; the function body has no `try`. -/
def read_file_tool (fs : List (String × String)) (cwd home : PyPath)
    (path : String) : Except String JVal :=
  let full_path := resolve_abs_path cwd home path
  match fsGet fs (renderPath full_path) with
  | none => Except.error ("FileNotFoundError: " ++ renderPath full_path)
  | some content =>
      Except.ok (JVal.obj [("path", JVal.s (renderPath full_path)),
                           ("content", JVal.s content)])

/-- The write keywords of `tools.is_sqlite_write_query` (tools.py:403-407). -/
def write_keywords : List String :=
  ["INSERT", "UPDATE", "DELETE", "DROP", "CREATE", "ALTER", "REPLACE", "TRUNCATE"]

/-- `tools.is_sqlite_write_query`: strip, upper-case, and test whether
the query starts with one of the write keywords. -/
def is_sqlite_write_query (query : String) : Bool :=
  let query_upper := pyUpper (pyStrip query)
  write_keywords.any (fun k => strStartsWith query_upper k)

/-- The safe-action allowlist of `tools.is_git_dangerous_action`. -/
def safe_actions : List String :=
  ["status", "log", "diff", "branch", "remote"]

/-- `tools.is_git_dangerous_action`: everything outside the safe-action
allowlist requires confirmation. -/
def is_git_dangerous_action (action : String) : Bool :=
  !(safe_actions.contains action)

/-- The keys of `tools.TOOL_REGISTRY` (tools.py:816-839). -/
def TOOL_REGISTRY_KEYS : List String :=
  ["propose_plan_tool", "read_file_tool", "list_files_tool", "edit_file_tool",
   "run_bash_tool", "manage_shell_session_tool", "run_python_tool",
   "search_code_tool", "sqlite_tool", "create_venv_tool", "install_deps_tool",
   "git_tool", "smart_commit_tool", "kegg_tool", "pdb_tool", "uniprot_tool",
   "ncbi_tool", "ontology_tool", "blast_tool", "analyze_pathway_tool",
   "compare_organisms_tool", "find_alternatives_tool"]

/-- `tools.DANGEROUS_TOOLS` (tools.py:842). -/
def DANGEROUS_TOOLS : List String :=
  ["run_bash_tool", "run_python_tool", "install_deps_tool", "smart_commit_tool"]

/-- The keys of `tools.CONDITIONAL_TOOLS` (tools.py:845-848); the
associated check functions are `is_sqlite_write_query` and
`is_git_dangerous_action`, dispatched by name in the loop. -/
def CONDITIONAL_TOOL_KEYS : List String :=
  ["sqlite_tool", "git_tool"]

/-! ## `session.py`: the session store

The store state is the contents of `~/.parakeet/sessions/*.json`
(keyed by session id) together with the contents of
`current_session.txt` (`none` when the file is absent).  Files in the
model are well-formed session records — `save_session` always writes
all three keys, and a corrupt on-disk file is not a state this model
reaches. -/

structure SessionData where
  session_id : String
  created_at : String
  messages : List Message
deriving DecidableEq, Repr

structure SessionStore where
  files : List (String × SessionData)
  current : Option String
deriving DecidableEq, Repr

def lookupFile : List (String × SessionData) → String → Option SessionData
  | [], _ => none
  | (k, v) :: rest, id => if k = id then some v else lookupFile rest id

/-- Overwrite-or-create a session file. -/
def setFile : List (String × SessionData) → String → SessionData →
    List (String × SessionData)
  | [], id, d => [(id, d)]
  | (k, v) :: rest, id, d =>
      if k = id then (id, d) :: rest else (k, v) :: setFile rest id d

def eraseFile : List (String × SessionData) → String → List (String × SessionData)
  | [], _ => []
  | (k, v) :: rest, id =>
      if k = id then rest else (k, v) :: eraseFile rest id

/-- `session.save_session` (session.py:29-45): full-overwrite persist of
the transcript under the id, then update the current-session pointer.
`now` stands for `datetime.now().isoformat()`. -/
def save_session (session_id : String) (conversation : List Message)
    (now : String) (st : SessionStore) : SessionStore :=
  { files := setFile st.files session_id
      ⟨session_id, now, conversation⟩
    current := some session_id }

/-- `session.load_session` (session.py:48-60): `none` when no file
exists for the id, otherwise the stored message list. -/
def load_session (session_id : String) (st : SessionStore) :
    Option (List Message) :=
  (lookupFile st.files session_id).map SessionData.messages

/-- `session.get_current_session_id` (session.py:63-72). -/
def get_current_session_id (st : SessionStore) : Option String :=
  st.current

/-- `session.load_last_session` (session.py:75-85).  Note the Python
truthiness guards: an empty id string and an empty loaded transcript
are both treated as "no session". -/
def load_last_session (st : SessionStore) :
    Option (String × List Message) :=
  match get_current_session_id st with
  | none => none
  | some session_id =>
      if session_id = "" then none
      else
        match load_session session_id st with
        | none => none
        | some conversation =>
            if conversation = [] then none
            else some (session_id, conversation)

/-- `session.delete_session` (session.py:113-127): `false` when no file
exists; otherwise unlink the file and clear the current-session
pointer exactly when it referenced this id. -/
def delete_session (session_id : String) (st : SessionStore) :
    Bool × SessionStore :=
  match lookupFile st.files session_id with
  | none => (false, st)
  | some _ =>
      let files' := eraseFile st.files session_id
      let current' :=
        match st.current with
        | some c => if c = session_id then none else some c
        | none => none
      (true, ⟨files', current'⟩)

/-- `session.MAX_MESSAGES` (session.py:11). -/
def MAX_MESSAGES : Nat := 100

/-- `session.trim_conversation` (session.py:144-153): return the
transcript unchanged when within the bound; otherwise keep the first
message when its role is `system` and take the Python slice
`conversation[-(max_messages - len(system_prompt)):]`. -/
def trim_conversation (conversation : List Message) (max_messages : Nat) :
    List Message :=
  if conversation.length ≤ max_messages then conversation
  else
    let system_prompt :=
      match conversation with
      | m :: _ => if m.role = Role.system then [m] else []
      | [] => []
    let recent_messages :=
      pySliceFrom (-((max_messages : Int) - system_prompt.length)) conversation
    system_prompt ++ recent_messages

/-! ## `agent.py`: streaming accumulation

`stream_response` (agent.py:208-264) consumes the chat stream and
accumulates content fragments and tool calls.  A chunk is modelled by
the two fields the accumulator reads; a `None` content is the empty
string and a `None` tool-call list is the empty list (both are falsy
in the source's guards).  The spinner and incremental printing are
display-only side effects outside the model. -/

structure Chunk where
  content : String
  tool_calls : List ToolCall
deriving DecidableEq, Repr

/-- The accumulator state of `stream_response`'s `for` loop. -/
def streamAcc (full_content : String) (tool_calls : List ToolCall) :
    List Chunk → String × List ToolCall
  | [] => (full_content, tool_calls)
  | c :: rest =>
      let full' := if c.content ≠ "" then full_content ++ c.content else full_content
      let tcs' := if c.tool_calls ≠ [] then tool_calls ++ c.tool_calls else tool_calls
      streamAcc full' tcs' rest

/-- `agent.stream_response`, as a fold over the finite chunk stream:
returns the accumulated content and tool calls once the stream is
exhausted. -/
def stream_response (chunks : List Chunk) : String × List ToolCall :=
  streamAcc "" [] chunks

/-! ## `agent.py`: one model turn of the agent loop

The inner loop body of `run_agent_loop` (agent.py:335-429) for a turn
whose streamed response produced `content` and `tool_calls`.  The two
interactive collaborators are parameters:

* `execTool name args` is the behaviour of `TOOL_REGISTRY[name](**args)`
  in the current environment — `Except.ok` a result dictionary, or
  `Except.error` when the callable raises; the loop wraps this call in
  no `try`/`except`.
* `confirm name rendered` is the pair `(approved, sudo_password)`
  returned by `confirm_execution` for that prompt. -/

structure TurnCtx where
  execTool : String → List (String × String) → Except String JVal
  confirm : String → String → Bool × Option String

/-- The `needs_confirmation`/`confirm_content` computation of
`run_agent_loop` (agent.py:357-401).

`smart_commit_tool`'s `files` argument is a Python list whose first
three entries are joined for display; the model carries the joined
rendering as the string argument (display string only — no claim
depends on it). -/
def confirmRequest (tool_name : String) (tool_args : List (String × String)) :
    Bool × String :=
  if DANGEROUS_TOOLS.contains tool_name then
    (true,
      if tool_name = "run_bash_tool" then argGet tool_args "command" ""
      else if tool_name = "run_python_tool" then argGet tool_args "code" ""
      else if tool_name = "install_deps_tool" then
        "Install dependencies in " ++ argGet tool_args "path" "."
      else if tool_name = "smart_commit_tool" then
        let files := argGet tool_args "files" "all changes"
        let custom_msg := argGet tool_args "custom_message" ""
        "Commit " ++ files ++
          (if custom_msg ≠ "" then "\nMessage: " ++ strTake custom_msg 100 else "")
      else "")
  else if tool_name = "sqlite_tool" then
    let query := argGet tool_args "query" ""
    if is_sqlite_write_query query then (true, query) else (false, "")
  else if tool_name = "git_tool" then
    let action := argGet tool_args "action" ""
    if is_git_dangerous_action action then
      (true,
        if action = "commit" then
          "git commit -m \"" ++ strTake (argGet tool_args "message" "") 100 ++ "\""
        else if action = "push" then
          "git push " ++ argGet tool_args "remote" "origin" ++ " " ++
            argGet tool_args "branch" ""
        else if action = "pull" then
          "git pull " ++ argGet tool_args "remote" "origin" ++ " " ++
            argGet tool_args "branch" ""
        else if action = "merge" then "git merge " ++ argGet tool_args "branch" ""
        else if action = "checkout" then
          "git checkout " ++ argGet tool_args "branch" ""
        else if action = "reset" then "git reset --soft HEAD"
        else "git " ++ action)
    else (false, "")
  else (false, "")

/-- Processing of one tool call (agent.py:348-416): returns the tool
call with its (possibly mutated) arguments dictionary, and the result
of the call — `Except.error` models an exception the loop does not
catch.  The returned `ToolCall` matters because `tool_args` is the
same dictionary object referenced from the assistant message already
appended to the conversation, so the in-place
`tool_args["sudo_password"] = sudo_password` (agent.py:410) is visible
there. -/
def processToolCall (ctx : TurnCtx) (tc : ToolCall) :
    ToolCall × Except String JVal :=
  if !(TOOL_REGISTRY_KEYS.contains tc.name) then
    (tc, Except.ok (JVal.obj [("error", JVal.s ("Unknown tool: " ++ tc.name))]))
  else
    let nc := confirmRequest tc.name tc.args
    if nc.1 then
      let dec := ctx.confirm tc.name nc.2
      if dec.1 then
        let tc' :=
          match dec.2 with
          | some pw =>
              if tc.name = "run_bash_tool" && pw ≠ "" then
                { tc with args := argSet tc.args "sudo_password" pw }
              else tc
          | none => tc
        (tc', ctx.execTool tc.name tc'.args)
      else
        (tc, Except.ok (JVal.obj
          [("status", JVal.s "cancelled"),
           ("message", JVal.s "User cancelled execution")]))
    else
      (tc, ctx.execTool tc.name tc.args)

/-- The batch over a turn's tool calls, in emission order: the final
state of the tool-call list (post mutation) and the appended tool-role
messages, or the first uncaught exception. -/
def runToolBatch (ctx : TurnCtx) : List ToolCall →
    Except String (List ToolCall × List Message)
  | [] => Except.ok ([], [])
  | tc :: rest =>
      let step := processToolCall ctx tc
      match step.2 with
      | Except.error e => Except.error e
      | Except.ok result =>
          match runToolBatch ctx rest with
          | Except.error e => Except.error e
          | Except.ok (tcs, msgs) =>
              Except.ok (step.1 :: tcs,
                Message.mk Role.tool (jsonDumps result) [] :: msgs)

/-- One completed model turn of the inner loop (agent.py:335-429): the
assistant message is appended (with the turn's tool calls when there
are any), then one tool-role message per call in emission order.  An
uncaught exception from a tool call propagates (`Except.error`): the
loop terminates with no completed conversation for this turn and
nothing is saved. -/
def processTurn (ctx : TurnCtx) (conversation : List Message)
    (content : String) (tool_calls : List ToolCall) :
    Except String (List Message) :=
  if tool_calls.isEmpty then
    Except.ok (conversation ++ [Message.mk Role.assistant content []])
  else
    match runToolBatch ctx tool_calls with
    | Except.error e => Except.error e
    | Except.ok (tcs, msgs) =>
        Except.ok (conversation ++ Message.mk Role.assistant content tcs :: msgs)

/-! ## `multi_agent.py`: the orchestrator loop's dispatch

`run_multi_agent_loop` (multi_agent.py:243-321) advertises exactly two
meta-tools to the model (multi_agent.py:271) but its dispatch
(multi_agent.py:312-315) handles only `delegate_task_tool`. -/

/-- The `orchestrator_tools` list of multi_agent.py:271: the names of
the two meta-tools offered to the orchestrator model. -/
def orchestrator_tools : List String :=
  ["propose_plan_tool", "delegate_task_tool"]

/-- The per-tool-call dispatch of the orchestrator loop
(multi_agent.py:312-315).  `delegate` is the behaviour of
`self.delegate_task_tool` (it runs a specialist loop and never raises
for an unknown agent — it returns an error dictionary). -/
def orchestratorDispatch (delegate : List (String × String) → JVal)
    (tc : ToolCall) : JVal :=
  if tc.name = "delegate_task_tool" then delegate tc.args
  else JVal.obj [("error", JVal.s ("Unknown orchestrator tool: " ++ tc.name))]

/-! ## Concrete fixtures used by the claim theorems -/

def sysM : Message := ⟨Role.system, "You are a coding assistant.", []⟩

def userM : Message := ⟨Role.user, "hello", []⟩

def cwdH : PyPath := ⟨true, ["h"]⟩

def homeH : PyPath := ⟨true, ["home", "u"]⟩

/-- A turn context whose registry behaviour contains the real
`read_file_tool` over an empty model filesystem (every other tool and
the confirmation prompt are irrelevant for the input it is used on). -/
def ctxReadFs : TurnCtx :=
  { execTool := fun name args =>
      if name = "read_file_tool" then
        read_file_tool [] cwdH homeH (argGet args "path" "")
      else Except.ok (JVal.s "unused")
    confirm := fun _ _ => (true, none) }

/-- A turn context whose user approves the prompt and supplies the
sudo password `hunter2` (option 2 of the three-way sudo gate), and
whose bash execution returns a plain result dictionary. -/
def ctxSudo : TurnCtx :=
  { execTool := fun _ _ =>
      Except.ok (JVal.obj [("stdout", JVal.s "ok"), ("stderr", JVal.s ""),
                           ("return_code", JVal.s "0")])
    confirm := fun _ _ => (true, some "hunter2") }

/-- A turn context whose user denies every confirmation prompt and
whose tool executions return the sentinel `"EXECUTED"`: a tool result
equal to the sentinel proves the underlying callable ran, a
`cancelled` result proves the gate fired and blocked it. -/
def ctxDeny : TurnCtx :=
  { execTool := fun _ _ => Except.ok (JVal.s "EXECUTED")
    confirm := fun _ _ => (false, none) }

/-- A turn context that approves every prompt (without credential). -/
def ctxApprove : TurnCtx :=
  { execTool := fun _ _ => Except.ok (JVal.s "EXECUTED")
    confirm := fun _ _ => (true, none) }

/-- A turn context whose tools always return normally. -/
def ctxOk : TurnCtx :=
  { execTool := fun _ _ => Except.ok (JVal.s "ok")
    confirm := fun _ _ => (false, none) }

/-! ## Helper lemmas -/

theorem sappend_empty (s : String) : s ++ "" = s := by
  cases s
  show String.mk (_ ++ []) = _
  rw [List.append_nil]

theorem sappend_assoc (a b c : String) : a ++ b ++ c = a ++ (b ++ c) := by
  cases a; cases b; cases c
  show String.mk (_ ++ _ ++ _) = String.mk (_ ++ (_ ++ _))
  rw [List.append_assoc]

theorem lookupFile_setFile (files : List (String × SessionData)) (id : String)
    (d : SessionData) : lookupFile (setFile files id d) id = some d := by
  induction files with
  | nil => simp [setFile, lookupFile]
  | cons kv rest ih =>
      by_cases h : kv.1 = id
      · simp [setFile, h, lookupFile]
      · cases kv
        simp_all [setFile, h, lookupFile]

theorem length_pySliceFrom_neg (k : Nat) (hk : 1 ≤ k) (l : List α) :
    (pySliceFrom (-(k : Int)) l).length = min l.length k := by
  have hneg : (-(k : Int)) < 0 := by omega
  rw [pySliceFrom, if_pos hneg, Int.natAbs_neg, Int.natAbs_ofNat,
    List.length_drop]
  omega

theorem normComps_no_dotdot (l acc : List String)
    (h : ∀ c ∈ l, c ≠ "..") : normComps acc l = acc.reverse ++ l := by
  induction l generalizing acc with
  | nil => simp [normComps]
  | cons c rest ih =>
      have hc : c ≠ ".." := h c (List.mem_cons_self c rest)
      have hrest : ∀ x ∈ rest, x ≠ ".." :=
        fun x hx => h x (List.mem_cons_of_mem c hx)
      show (if c = ".." then _ else normComps (c :: acc) rest) = _
      rw [if_neg hc, ih (c :: acc) hrest]
      simp

theorem streamAcc_spec (chunks : List Chunk) (full : String)
    (tcs : List ToolCall) :
    streamAcc full tcs chunks
      = (full ++ (chunks.map Chunk.content).foldr (· ++ ·) "",
         tcs ++ (chunks.map Chunk.tool_calls).foldr (· ++ ·) []) := by
  induction chunks generalizing full tcs with
  | nil => simp [streamAcc, sappend_empty]
  | cons c rest ih =>
      rw [streamAcc, ih]
      simp only [List.map_cons, List.foldr_cons, Prod.mk.injEq]
      constructor
      · by_cases hc : c.content = "" <;>
          simp [hc, sappend_empty, sappend_assoc]
      · by_cases ht : c.tool_calls = [] <;> simp [ht]

/-! ## Theorems for the claims -/

/-- Claim C8 (confirmed): `stream_response` concatenates all content
fragments of a finite event stream in arrival order into one string
and collects all tool-call requests into one ordered sequence,
returning both only after the stream is exhausted; a zero-event stream
yields the empty string and the empty tool-call list as a valid
(non-error) outcome. -/
theorem stream_accumulation (chunks : List Chunk) :
    stream_response chunks
      = ((chunks.map Chunk.content).foldr (· ++ ·) "",
         (chunks.map Chunk.tool_calls).foldr (· ++ ·) [])
    ∧ stream_response [] = ("", []) := by
  refine ⟨?_, rfl⟩
  rw [stream_response, streamAcc_spec]
  have he : ∀ s : String, "" ++ s = s := by
    intro s
    cases s
    show String.mk ([] ++ _) = _
    rw [List.nil_append]
  simp [he]

/-- The most recent `k` elements of a list (the spec's "most recent
`(max_messages - preserved_count)` messages"). -/
def lastMsgs (k : Nat) (l : List α) : List α :=
  l.drop (l.length - k)

theorem pySliceFrom_neg_eq_drop (k : Nat) (hk : 1 ≤ k) (l : List α) :
    pySliceFrom (-(k : Int)) l = l.drop (l.length - min l.length k) := by
  rw [pySliceFrom, if_pos (by omega : (-(k : Int)) < 0), Int.natAbs_neg,
    Int.natAbs_ofNat]

theorem trim_id_of_le (conversation : List Message) (m : Nat)
    (hle : conversation.length ≤ m) :
    trim_conversation conversation m = conversation := by
  simp [trim_conversation, hle]

theorem trim_eval_sys (m0 : Message) (rest : List Message) (m : Nat)
    (hgt : ¬ (m0 :: rest).length ≤ m) (hrole : m0.role = Role.system) :
    trim_conversation (m0 :: rest) m
      = m0 :: pySliceFrom (1 - (m : Int)) (m0 :: rest) := by
  simp only [List.length_cons] at hgt
  simp [trim_conversation, hgt, hrole]

theorem trim_eval_nonsys (m0 : Message) (rest : List Message) (m : Nat)
    (hgt : ¬ (m0 :: rest).length ≤ m) (hrole : ¬ m0.role = Role.system) :
    trim_conversation (m0 :: rest) m
      = pySliceFrom (-(m : Int)) (m0 :: rest) := by
  simp only [List.length_cons] at hgt
  simp [trim_conversation, hgt, hrole]

theorem trim_length_exact (conversation : List Message) (m : Nat)
    (h2 : 2 ≤ m) (hgt : ¬ conversation.length ≤ m) :
    (trim_conversation conversation m).length = m := by
  match conversation with
  | [] => simp at hgt
  | m0 :: rest =>
      have hlen : m + 1 ≤ (m0 :: rest).length := by omega
      by_cases hrole : m0.role = Role.system
      · rw [trim_eval_sys m0 rest m hgt hrole]
        have harg : (1 - (m : Int)) = -(((m - 1 : Nat) : Int)) := by omega
        rw [harg]
        simp only [List.length_cons, length_pySliceFrom_neg (m - 1) (by omega)]
        simp only [List.length_cons] at hlen
        omega
      · rw [trim_eval_nonsys m0 rest m hgt hrole]
        rw [length_pySliceFrom_neg m (by omega)]
        simp only [List.length_cons] at hlen
        simp only [List.length_cons]
        omega

/-- Claim C3 counterexample: at bound 1 a two-message transcript whose
first message is the system prompt trims to three messages — the
Python slice `[-(1-1):]` is `[-0:]`, the whole list — so the result
exceeds the bound, duplicates the system prompt, and trimming is not
idempotent at that bound. -/
theorem trim_bound_one_counterexample :
    trim_conversation [sysM, userM] 1 = [sysM, sysM, userM]
    ∧ ¬ (trim_conversation [sysM, userM] 1).length ≤ 1
    ∧ trim_conversation (trim_conversation [sysM, userM] 1) 1
        ≠ trim_conversation [sysM, userM] 1 := by
  decide

/-- Claim C3 as amended: `trim_conversation` returns transcripts within
the bound unchanged; for every bound at least 2 the result length
never exceeds the bound, trimming is idempotent, and an over-long
transcript is trimmed to exactly the first message followed by the
most recent `bound - 1` messages when that first message's role is
`system`, and to exactly the most recent `bound` messages otherwise
(so the first message is preserved exactly when it is the system
prompt, and only the most recent `(bound - preserved_count)` messages
are retained); and for every bound at least 1 a transcript whose first
message has role `system` keeps that exact message first.  (At bound 1
the length bound and idempotence fail, because the Python slice
`[-0:]` retains the whole list.) -/
theorem trim_conversation_props (conversation : List Message) (m : Nat) :
    (conversation.length ≤ m → trim_conversation conversation m = conversation)
    ∧ (2 ≤ m → (trim_conversation conversation m).length ≤ m)
    ∧ (2 ≤ m →
        trim_conversation (trim_conversation conversation m) m
          = trim_conversation conversation m)
    ∧ (∀ m0 rest, 1 ≤ m → conversation = m0 :: rest →
        m0.role = Role.system →
        (trim_conversation conversation m).head? = some m0)
    ∧ (∀ m0 rest, 2 ≤ m → ¬ conversation.length ≤ m →
        conversation = m0 :: rest → m0.role = Role.system →
        trim_conversation conversation m
          = m0 :: lastMsgs (m - 1) conversation)
    ∧ (∀ m0 rest, 1 ≤ m → ¬ conversation.length ≤ m →
        conversation = m0 :: rest → ¬ m0.role = Role.system →
        trim_conversation conversation m = lastMsgs m conversation) := by
  refine ⟨trim_id_of_le conversation m, ?_, ?_, ?_, ?_, ?_⟩
  · intro h2
    by_cases hle : conversation.length ≤ m
    · rw [trim_id_of_le conversation m hle]
      exact hle
    · exact le_of_eq (trim_length_exact conversation m h2 hle)
  · intro h2
    by_cases hle : conversation.length ≤ m
    · rw [trim_id_of_le conversation m hle, trim_id_of_le conversation m hle]
    · exact trim_id_of_le _ m
        (le_of_eq (trim_length_exact conversation m h2 hle))
  · intro m0 rest h1 hconv hrole
    subst hconv
    by_cases hle : (m0 :: rest).length ≤ m
    · rw [trim_id_of_le _ m hle]
      rfl
    · rw [trim_eval_sys m0 rest m hle hrole]
      rfl
  · intro m0 rest h2 hgt hconv hrole
    subst hconv
    rw [trim_eval_sys m0 rest m hgt hrole]
    have harg : (1 - (m : Int)) = -(((m - 1 : Nat) : Int)) := by omega
    rw [harg, pySliceFrom_neg_eq_drop (m - 1) (by omega)]
    have hmin : min (m0 :: rest).length (m - 1) = m - 1 := by
      simp only [List.length_cons] at hgt ⊢
      omega
    rw [hmin]
    rfl
  · intro m0 rest h1 hgt hconv hrole
    subst hconv
    rw [trim_eval_nonsys m0 rest m hgt hrole]
    rw [pySliceFrom_neg_eq_drop m h1]
    have hmin : min (m0 :: rest).length m = m := by
      simp only [List.length_cons] at hgt ⊢
      omega
    rw [hmin]
    rfl

/-- Witness for `trim_conversation_props`: the bound-2 facts, the
system-prompt preservation, and the retained-suffix characterisations
instantiated on concrete transcripts. -/
theorem trim_conversation_props_witness :
    (trim_conversation [sysM, userM, userM, userM] 2).length ≤ 2
    ∧ trim_conversation (trim_conversation [sysM, userM, userM, userM] 2) 2
        = trim_conversation [sysM, userM, userM, userM] 2
    ∧ (trim_conversation [sysM, userM, userM, userM] 2).head? = some sysM
    ∧ trim_conversation [sysM, userM, userM, userM] 2
        = sysM :: lastMsgs 1 [sysM, userM, userM, userM]
    ∧ trim_conversation [userM, userM, userM] 2
        = lastMsgs 2 [userM, userM, userM] :=
  ⟨(trim_conversation_props [sysM, userM, userM, userM] 2).2.1 (by decide),
   (trim_conversation_props [sysM, userM, userM, userM] 2).2.2.1 (by decide),
   (trim_conversation_props [sysM, userM, userM, userM] 2).2.2.2.1 sysM
     [userM, userM, userM] (by decide) rfl rfl,
   (trim_conversation_props [sysM, userM, userM, userM] 2).2.2.2.2.1 sysM
     [userM, userM, userM] (by decide) (by decide) rfl rfl,
   (trim_conversation_props [userM, userM, userM] 2).2.2.2.2.2 userM
     [userM, userM] (by decide) (by decide) rfl (by decide)⟩

/-- Claim C5 counterexample: saving an empty transcript under a fresh
id does create the session file (`load` returns the empty transcript),
but `loadCurrent` returns NotFound rather than the pair of id and
transcript — `load_last_session` treats an empty loaded message list
as falsy and discards the resumable session. -/
theorem save_empty_loadCurrent_counterexample :
    load_session "20250101_120000"
        (save_session "20250101_120000" [] "t0" ⟨[], none⟩) = some []
    ∧ load_last_session (save_session "20250101_120000" [] "t0" ⟨[], none⟩)
        = none := by
  decide

/-- Claim C5 as amended: `save(id, T)` followed by `load(id)` returns a
transcript equal to `T` for every id and transcript; `loadCurrent()`
after `save(id, T)` returns the pair `(id, T)` provided the transcript
is nonempty and the id is a nonempty string (both are treated as falsy
by `load_last_session`, which then reports no session). -/
theorem session_roundtrip (st : SessionStore) (id : String)
    (conv : List Message) (now : String) :
    load_session id (save_session id conv now st) = some conv
    ∧ (id ≠ "" → conv ≠ [] →
        load_last_session (save_session id conv now st) = some (id, conv)) := by
  have hload : load_session id (save_session id conv now st) = some conv := by
    simp [load_session, save_session, lookupFile_setFile]
  refine ⟨hload, fun hid hconv => ?_⟩
  unfold load_last_session
  simp only [get_current_session_id]
  rw [show (save_session id conv now st).current = some id from rfl]
  simp [hid, hload, hconv]

/-- Witness for `session_roundtrip`: a one-message transcript saved
under a timestamp id is the pair `loadCurrent` returns. -/
theorem session_roundtrip_witness :
    load_last_session
        (save_session "20250101_120000" [userM] "t0" ⟨[], none⟩)
      = some ("20250101_120000", [userM]) :=
  (session_roundtrip ⟨[], none⟩ "20250101_120000" [userM] "t0").2
    (by decide) (by decide)

/-- Claim C9 (confirmed): after `save(id, T)`, `delete(id)` reports
true and `loadCurrent()` returns NotFound (the pointer was cleared);
`delete` returns true exactly when a session file for the id existed;
and deleting an id other than the one the pointer references leaves
the pointer unchanged. -/
theorem delete_session_clears_pointer (st : SessionStore) (id other : String)
    (conv : List Message) (now : String) :
    ((delete_session id (save_session id conv now st)).1 = true
      ∧ load_last_session (delete_session id (save_session id conv now st)).2
          = none)
    ∧ ((delete_session id st).1 = true ↔ (lookupFile st.files id).isSome = true)
    ∧ (st.current = some other → id ≠ other →
        ((delete_session id st).2).current = some other) := by
  refine ⟨⟨?_, ?_⟩, ?_, ?_⟩
  · simp [delete_session, save_session, lookupFile_setFile]
  · simp [delete_session, save_session, lookupFile_setFile,
      load_last_session, get_current_session_id]
  · cases h : lookupFile st.files id <;> simp [delete_session, h]
  · intro hcur hne
    cases h : lookupFile st.files id with
    | none => simp [delete_session, h, hcur]
    | some d =>
        have hne' : other ≠ id := fun he => hne he.symm
        simp [delete_session, h, hcur, hne']

/-- Witness for `delete_session_clears_pointer`: deleting session `a`
while the pointer references session `b` keeps the pointer on `b`, and
the save-then-delete round trip at a concrete id clears it. -/
theorem delete_session_clears_pointer_witness :
    ((delete_session "a" ⟨[("a", ⟨"a", "t0", [userM]⟩)], some "b"⟩).2).current
        = some "b"
    ∧ load_last_session
        (delete_session "20250101_120000"
          (save_session "20250101_120000" [userM] "t0" ⟨[], none⟩)).2 = none :=
  ⟨(delete_session_clears_pointer ⟨[("a", ⟨"a", "t0", [userM]⟩)], some "b"⟩
      "a" "b" [] "t").2.2 rfl (by decide),
   (delete_session_clears_pointer ⟨[], none⟩ "20250101_120000" "x" [userM]
      "t0").1.2⟩

/-- Claim C6 counterexample: with working directory `/h`, the relative
spelling `a/../b` resolves to the normalised `/h/b`, but the equivalent
absolute spelling `/h/a/../b` is returned verbatim — `resolve()` is
only applied on the relative branch, so resolution is not identical for
the two spellings and the absolute result is not fully normalised. -/
theorem resolve_abs_path_counterexample :
    resolve_abs_path cwdH homeH "a/../b" = ⟨true, ["h", "b"]⟩
    ∧ resolve_abs_path cwdH homeH "/h/a/../b" = ⟨true, ["h", "a", "..", "b"]⟩
    ∧ resolve_abs_path cwdH homeH "a/../b"
        ≠ resolve_abs_path cwdH homeH "/h/a/../b" := by
  decide

/-- Claim C6 as amended: paths are expanded for user-home shorthand
before use and relative paths are resolved against the working
directory; an absolute path, however, is returned without `resolve()`,
so the relative and absolute spellings of a location agree exactly
when neither the working directory nor the path contributes a `".."`
component (under which the relative branch's normalisation is the
identity). -/
theorem resolve_abs_path_agreement (cwd home : PyPath)
    (relStr absStr : String)
    (habs : cwd.absolute = true)
    (hrel : (parsePath relStr).absolute = false)
    (htilde : ¬ (parsePath relStr).comps.head? = some "~")
    (hspell : parsePath absStr = joinPath cwd (parsePath relStr))
    (hcwd : ∀ c ∈ cwd.comps, c ≠ "..")
    (hrelc : ∀ c ∈ (parsePath relStr).comps, c ≠ "..") :
    resolve_abs_path cwd home relStr = resolve_abs_path cwd home absStr
    ∧ (resolve_abs_path cwd home relStr).absolute = true := by
  have hexp : expanduser home (parsePath relStr) = parsePath relStr := by
    simp [expanduser, hrel, htilde]
  have hjoin : joinPath cwd (parsePath relStr)
      = ⟨true, cwd.comps ++ (parsePath relStr).comps⟩ := by
    simp [joinPath, hrel, habs]
  have hnorm : normComps [] (cwd.comps ++ (parsePath relStr).comps)
      = cwd.comps ++ (parsePath relStr).comps := by
    have h : ∀ c ∈ cwd.comps ++ (parsePath relStr).comps, c ≠ ".." := by
      intro c hc
      rcases List.mem_append.mp hc with h' | h'
      · exact hcwd c h'
      · exact hrelc c h'
    rw [normComps_no_dotdot _ [] h]
    rfl
  have hleft : resolve_abs_path cwd home relStr
      = ⟨true, cwd.comps ++ (parsePath relStr).comps⟩ := by
    rw [resolve_abs_path, hexp]
    simp only [hrel]
    rw [if_neg (by simp [hrel]), hjoin, pyResolve]
    simp [hnorm]
  have hexp2 : expanduser home (parsePath absStr) = parsePath absStr := by
    rw [hspell, hjoin]
    simp [expanduser]
  have hright : resolve_abs_path cwd home absStr
      = ⟨true, cwd.comps ++ (parsePath relStr).comps⟩ := by
    rw [resolve_abs_path, hexp2, hspell, hjoin]
    simp
  rw [hleft, hright]
  exact ⟨rfl, rfl⟩

/-- Witness for `resolve_abs_path_agreement`: under working directory
`/h`, the relative spelling `docs/readme.md` and the absolute spelling
`/h/docs/readme.md` resolve identically. -/
theorem resolve_abs_path_agreement_witness :
    resolve_abs_path cwdH homeH "docs/readme.md"
        = resolve_abs_path cwdH homeH "/h/docs/readme.md"
    ∧ (resolve_abs_path cwdH homeH "docs/readme.md").absolute = true :=
  resolve_abs_path_agreement cwdH homeH "docs/readme.md" "/h/docs/readme.md"
    (by decide) (by decide) (by decide) (by decide) (by decide) (by decide)

/-- The tool-role message appended for one tool call of a batch (the
`Except.error` arm is never reached when no tool raises). -/
def toolMessageFor (ctx : TurnCtx) (tc : ToolCall) : Message :=
  match (processToolCall ctx tc).2 with
  | Except.ok result => Message.mk Role.tool (jsonDumps result) []
  | Except.error e => Message.mk Role.tool e []

theorem toolMessageFor_role (ctx : TurnCtx) (tc : ToolCall) :
    (toolMessageFor ctx tc).role = Role.tool := by
  unfold toolMessageFor
  rcases (processToolCall ctx tc).2 with e | v <;> rfl

theorem processToolCall_ok (ctx : TurnCtx)
    (hok : ∀ name args, ∃ v, ctx.execTool name args = Except.ok v)
    (tc : ToolCall) : ∃ v, (processToolCall ctx tc).2 = Except.ok v := by
  unfold processToolCall
  by_cases hreg : TOOL_REGISTRY_KEYS.contains tc.name
  · simp only [hreg, Bool.not_true, Bool.false_eq_true, if_false]
    by_cases hneed : (confirmRequest tc.name tc.args).1
    · simp only [hneed, if_true]
      by_cases happ : (ctx.confirm tc.name (confirmRequest tc.name tc.args).2).1
      · simp only [happ, if_true]
        exact hok tc.name _
      · simp only [happ, Bool.false_eq_true, if_false]
        exact ⟨_, rfl⟩
    · simp only [hneed, Bool.false_eq_true, if_false]
      exact hok tc.name _
  · simp only [hreg, Bool.not_false, if_true]
    exact ⟨_, rfl⟩

theorem runToolBatch_no_raise (ctx : TurnCtx)
    (hok : ∀ name args, ∃ v, ctx.execTool name args = Except.ok v) :
    ∀ tool_calls : List ToolCall,
      runToolBatch ctx tool_calls
        = Except.ok (tool_calls.map (fun tc => (processToolCall ctx tc).1),
                     tool_calls.map (toolMessageFor ctx))
  | [] => rfl
  | tc :: rest => by
      obtain ⟨v, hv⟩ := processToolCall_ok ctx hok tc
      have hm : toolMessageFor ctx tc = Message.mk Role.tool (jsonDumps v) [] := by
        unfold toolMessageFor
        rw [hv]
      rw [runToolBatch]
      simp only [hv, runToolBatch_no_raise ctx hok rest, List.map_cons, hm]

/-- Claim C1 counterexample: a model turn carrying one tool call for
`read_file_tool` on a path with no file behind it makes the turn end
in an uncaught `FileNotFoundError` — the loop wraps tool execution in
no `try`, so the fault propagates out instead of being captured as an
error-payload tool message, and zero tool-role messages are appended
for the one call. -/
theorem tool_fault_propagates_counterexample :
    processTurn ctxReadFs [sysM, userM] ""
        [⟨"read_file_tool", [("path", "missing.txt")]⟩]
      = Except.error "FileNotFoundError: /h/missing.txt" := by
  rfl

/-- Claim C1 as amended: provided every tool execution of the batch
returns a value rather than raising, a model turn with N tool calls
appends the assistant message followed by exactly N tool-role
messages, one per call in emission order (the i-th tool message
serialises the i-th call's outcome); unknown tools and gate denials
are already captured as error payloads, but a tool implementation that
raises (such as `read_file_tool` on a missing path) propagates out of
the loop uncaught. -/
theorem batch_order_after_no_raise (ctx : TurnCtx)
    (conversation : List Message) (content : String)
    (tool_calls : List ToolCall)
    (hok : ∀ name args, ∃ v, ctx.execTool name args = Except.ok v) :
    processTurn ctx conversation content tool_calls
      = Except.ok (conversation ++
          Message.mk Role.assistant content
              (tool_calls.map (fun tc => (processToolCall ctx tc).1))
            :: tool_calls.map (toolMessageFor ctx))
    ∧ (tool_calls.map (toolMessageFor ctx)).length = tool_calls.length
    ∧ ∀ msg ∈ tool_calls.map (toolMessageFor ctx), msg.role = Role.tool := by
  refine ⟨?_, List.length_map _ _, ?_⟩
  · unfold processTurn
    rcases tool_calls with _ | ⟨tc, rest⟩
    · rfl
    · rw [if_neg (by simp)]
      rw [runToolBatch_no_raise ctx hok]
  · intro msg hmsg
    obtain ⟨tc, _, htc⟩ := List.mem_map.mp hmsg
    rw [← htc]
    exact toolMessageFor_role ctx tc

/-- Witness for `batch_order_after_no_raise`: a two-call batch (one
registered tool, one unknown tool) under an environment whose tools
always return. -/
theorem batch_order_after_no_raise_witness :
    processTurn ctxOk [sysM] "done"
        [⟨"read_file_tool", [("path", "a.txt")]⟩, ⟨"no_such_tool", []⟩]
      = Except.ok ([sysM] ++
          Message.mk Role.assistant "done"
              ([⟨"read_file_tool", [("path", "a.txt")]⟩,
                ⟨"no_such_tool", []⟩].map
                (fun tc => (processToolCall ctxOk tc).1))
            :: [⟨"read_file_tool", [("path", "a.txt")]⟩,
                ⟨"no_such_tool", []⟩].map (toolMessageFor ctxOk)) :=
  (batch_order_after_no_raise ctxOk [sysM] "done"
    [⟨"read_file_tool", [("path", "a.txt")]⟩, ⟨"no_such_tool", []⟩]
    (fun _ _ => ⟨JVal.s "ok", rfl⟩)).1

/-- The conversation produced by a turn in which the user approves a
sudo bash command and supplies the password `hunter2`. -/
def sudoLeakConv : List Message :=
  [sysM, userM,
   ⟨Role.assistant, "",
     [⟨"run_bash_tool",
       [("command", "sudo apt-get install nmap"),
        ("sudo_password", "hunter2")]⟩]⟩,
   ⟨Role.tool,
     "\x7b\"stdout\": \"ok\", \"stderr\": \"\", \"return_code\": \"0\"\x7d",
     []⟩]

/-- Claim C2 (code bug): approving a sudo bash command with a
credential injects `sudo_password` into the same arguments dictionary
the assistant message's `tool_calls` already reference, so the
credential appears in the transcript, and `save_session` then persists
that transcript verbatim — `load` returns it with the password
included.  The spec's invariant (the credential is used for the single
invocation only and never persisted) is violated. -/
theorem sudo_password_persisted_in_transcript :
    processTurn ctxSudo [sysM, userM] ""
        [⟨"run_bash_tool", [("command", "sudo apt-get install nmap")]⟩]
      = Except.ok sudoLeakConv
    ∧ (sudoLeakConv.any fun msg => msg.tool_calls.any fun tc =>
        tc.args.contains ("sudo_password", "hunter2")) = true
    ∧ load_session "s1" (save_session "s1" sudoLeakConv "t0" ⟨[], none⟩)
        = some sudoLeakConv := by
  exact ⟨rfl, rfl, rfl⟩

/-- Claim C7 (confirmed): the sqlite tool is confirmation-gated exactly
when `is_sqlite_write_query` holds of its query argument; concretely,
under a user who denies every prompt, `SELECT * FROM t` still executes
(the sentinel result shows the callable ran, so no gate fired) while
`DELETE FROM t` is stopped by the gate with a cancellation payload,
and under an approving user the same `DELETE` executes. -/
theorem sqlite_conditional_gating :
    (∀ q : String,
      (confirmRequest "sqlite_tool" [("database", "db.sqlite"), ("query", q)]).1
        = is_sqlite_write_query q)
    ∧ processTurn ctxDeny [sysM] ""
        [⟨"sqlite_tool", [("database", "db.sqlite"),
                          ("query", "SELECT * FROM t")]⟩]
      = Except.ok [sysM,
          ⟨Role.assistant, "",
            [⟨"sqlite_tool", [("database", "db.sqlite"),
                              ("query", "SELECT * FROM t")]⟩]⟩,
          ⟨Role.tool, "\"EXECUTED\"", []⟩]
    ∧ processTurn ctxDeny [sysM] ""
        [⟨"sqlite_tool", [("database", "db.sqlite"),
                          ("query", "DELETE FROM t")]⟩]
      = Except.ok [sysM,
          ⟨Role.assistant, "",
            [⟨"sqlite_tool", [("database", "db.sqlite"),
                              ("query", "DELETE FROM t")]⟩]⟩,
          ⟨Role.tool,
            "\x7b\"status\": \"cancelled\", \"message\": \"User cancelled execution\"\x7d",
            []⟩]
    ∧ processTurn ctxApprove [sysM] ""
        [⟨"sqlite_tool", [("database", "db.sqlite"),
                          ("query", "DELETE FROM t")]⟩]
      = Except.ok [sysM,
          ⟨Role.assistant, "",
            [⟨"sqlite_tool", [("database", "db.sqlite"),
                              ("query", "DELETE FROM t")]⟩]⟩,
          ⟨Role.tool, "\"EXECUTED\"", []⟩] := by
  refine ⟨?_, rfl, rfl, rfl⟩
  intro q
  show (if is_sqlite_write_query q then ((true : Bool), q)
        else ((false : Bool), "")).1 = is_sqlite_write_query q
  by_cases h : is_sqlite_write_query q <;> simp [h]

/-- The claim's wording of the write classification, as a disjunction
over the eight leading keywords of the stripped, upper-cased query. -/
def write_query_claim (query : String) : Prop :=
  strStartsWith (pyUpper (pyStrip query)) "INSERT" = true
  ∨ strStartsWith (pyUpper (pyStrip query)) "UPDATE" = true
  ∨ strStartsWith (pyUpper (pyStrip query)) "DELETE" = true
  ∨ strStartsWith (pyUpper (pyStrip query)) "DROP" = true
  ∨ strStartsWith (pyUpper (pyStrip query)) "CREATE" = true
  ∨ strStartsWith (pyUpper (pyStrip query)) "ALTER" = true
  ∨ strStartsWith (pyUpper (pyStrip query)) "REPLACE" = true
  ∨ strStartsWith (pyUpper (pyStrip query)) "TRUNCATE" = true

/-- Claim C10 (confirmed): the gating classification depends only on
the leading keyword of the stripped, upper-cased query text; a `DELETE`
reached through a leading `WITH` clause or a leading SQL comment is
classified read-only, and the loop then executes `sqlite_tool` without
any confirmation prompt (it runs even under a user who would deny
every prompt). -/
theorem write_classification_leading_keyword :
    (∀ q : String, is_sqlite_write_query q = true ↔ write_query_claim q)
    ∧ is_sqlite_write_query
        "WITH doomed AS (SELECT id FROM t) DELETE FROM t WHERE id IN doomed"
        = false
    ∧ is_sqlite_write_query "/* cleanup */ DELETE FROM t" = false
    ∧ processTurn ctxDeny [sysM] ""
        [⟨"sqlite_tool", [("database", "db.sqlite"),
          ("query",
           "WITH doomed AS (SELECT id FROM t) DELETE FROM t WHERE id IN doomed")]⟩]
      = Except.ok [sysM,
          ⟨Role.assistant, "",
            [⟨"sqlite_tool", [("database", "db.sqlite"),
              ("query",
               "WITH doomed AS (SELECT id FROM t) DELETE FROM t WHERE id IN doomed")]⟩]⟩,
          ⟨Role.tool, "\"EXECUTED\"", []⟩] := by
  refine ⟨?_, rfl, rfl, rfl⟩
  intro q
  simp [is_sqlite_write_query, write_keywords, write_query_claim,
    List.any_cons, List.any_nil, or_assoc]

/-- Claim C4 (code bug): the orchestrator loop advertises exactly the
two meta-tools `propose_plan_tool` and `delegate_task_tool` to the
model, but its dispatch handles only delegation: a model turn calling
the plan-proposal meta-tool receives an `Unknown orchestrator tool`
error payload instead of having its steps surfaced to the human —
contradicting the orchestrator's own system prompt, which instructs
the model to present plans with `propose_plan_tool`. -/
theorem propose_plan_unknown_tool_error :
    orchestrator_tools = ["propose_plan_tool", "delegate_task_tool"]
    ∧ orchestrator_tools.contains "propose_plan_tool" = true
    ∧ ∀ (delegate : List (String × String) → JVal)
        (args : List (String × String)),
        orchestratorDispatch delegate ⟨"propose_plan_tool", args⟩
          = JVal.obj
              [("error",
                JVal.s "Unknown orchestrator tool: propose_plan_tool")] := by
  refine ⟨rfl, rfl, fun delegate args => ?_⟩
  rfl

end Parakeet
